import Mathlib

/-!
Shallow embedding of `nnef_tools/io/caffe2/reader.py` (NNEF-Tools), the
Caffe/Caffe2-to-ONNX model loader, together with theorems settling the
specification claims about it.

Protocol-buffer messages are modelled as Lean structures carrying exactly the
fields the reader touches.  Repeated proto fields become lists; proto numeric
fields become `Nat`/`Int`.  Python `assert` failures, `IndexError`s and
file/parse errors are modelled by `Except`/`Option` results.  File I/O is
modelled by an explicit filesystem map `String → Option FileData` plus a trace
of the paths opened, in order.
-/

/-! ### Data model: caffe prototxt / caffemodel messages (the fields used) -/

/-- Convolution/Pooling parameter block: `kernel_size`/`stride`/`pad` repeated
fields plus the explicit `_h`/`_w` scalar fields
(`reader.py` touches no other fields of these blocks). -/
structure ConvPoolParam where
  kernel_size : List Nat
  kernel_h : Nat
  kernel_w : Nat
  stride : List Nat
  stride_h : Nat
  stride_w : Nat
  pad : List Nat
  pad_h : Nat
  pad_w : Nat
deriving DecidableEq, Repr, Inhabited

/-- Eltwise parameter block: the repeated `coeff` field. -/
structure EltwiseParam where
  coeff : List Int
deriving DecidableEq, Repr, Inhabited

/-- A weight blob of a caffemodel layer: its repeated `data` field. -/
structure Blob where
  data : List Int
deriving DecidableEq, Repr, Inhabited

/-- A layer of the network definition (prototxt): type tag, name, `top` names,
`input_param.shape` dims, and the parameter blocks the fixups touch. -/
structure LayerParameter where
  type : String
  name : String
  top : List String
  input_param_shape : List (List Int)
  convolution_param : ConvPoolParam
  pooling_param : ConvPoolParam
  eltwise_param : EltwiseParam
deriving DecidableEq, Repr, Inhabited

/-- The prototxt `NetParameter`: layers plus the top-level legacy input fields
`input`, `input_shape`, `input_dim`. -/
structure NetParameter where
  layer : List LayerParameter
  input : List String
  input_shape : List (List Int)
  input_dim : List Int
deriving DecidableEq, Repr, Inhabited

/-- A caffemodel layer: name and weight blobs. -/
structure ModelLayer where
  name : String
  blobs : List Blob
deriving DecidableEq, Repr, Inhabited

/-- The caffemodel `NetParameter`: the two layer containers (`layer` and the
legacy `layers`) that `_find_model_layer` searches. -/
structure CaffeModel where
  layer : List ModelLayer
  layers : List ModelLayer
deriving DecidableEq, Repr, Inhabited

/-! ### Data model: Caffe2 NetDef and ONNX envelope (the fields used) -/

/-- An operator argument (Caffe2 `Argument`): name and a payload value. -/
structure Argument where
  name : String
  i : Int
deriving DecidableEq, Repr, Inhabited

/-- A Caffe2 operator: inputs, outputs, arguments. -/
structure OperatorDef where
  input : List String
  output : List String
  arg : List Argument
deriving DecidableEq, Repr, Inhabited

/-- A Caffe2 `NetDef`: operators and the external input/output name lists. -/
structure NetDef where
  op : List OperatorDef
  external_input : List String
  external_output : List String
deriving DecidableEq, Repr, Inhabited

/-- A named tensor of trained parameters (caffe2 `TensorProto`). -/
structure TensorProto where
  name : String
deriving DecidableEq, Repr, Inhabited

/-- The trained parameters returned by `TranslateModel` (`TensorProtos`). -/
structure TensorProtos where
  protos : List TensorProto
deriving DecidableEq, Repr, Inhabited

/-- An ONNX operator-set identifier. -/
structure OperatorSetId where
  domain : String
  version : Int
deriving DecidableEq, Repr, Inhabited

/-- The ONNX graph produced by the external `caffe2_net_to_onnx_graph`
builder: its name plus an opaque node payload. -/
structure OnnxGraph where
  name : String
  node : List String
deriving DecidableEq, Repr, Inhabited

/-- The ONNX model envelope: graph plus opset imports. -/
structure OnnxModel where
  graph : OnnxGraph
  opset_import : List OperatorSetId
deriving DecidableEq, Repr, Inhabited

/-- `value_info`: map from input tensor name to its shape (element type is
always FLOAT on the legacy path, so only the shape is carried). -/
def ValueInfo : Type := List (String × List Int)

instance : DecidableEq ValueInfo := by
  unfold ValueInfo
  infer_instance

/-! ### The parameter fixups (`reader.py` lines 96-123, 139-144) -/

/-- One `if isinstance(x, Sequence) and len(x) == 2` block of
`_fix_conv_pool_param`: a 2-element array is split into the `h`/`w` scalars
and emptied (`del x[1]; del x[0]`); any other length leaves all three
unchanged.  (The `isinstance` guard holds for every repeated proto field,
which is what the list models.) -/
def fix2 (arr : List Nat) (h w : Nat) : List Nat × Nat × Nat :=
  match arr with
  | [a, b] => ([], a, b)
  | _ => (arr, h, w)

/-- `_fix_conv_pool_param` (lines 96-111): applies the 2-element split to
`kernel_size`, `stride` and `pad` in turn. -/
def fixConvPoolParam (p : ConvPoolParam) : ConvPoolParam :=
  let k := fix2 p.kernel_size p.kernel_h p.kernel_w
  let s := fix2 p.stride p.stride_h p.stride_w
  let d := fix2 p.pad p.pad_h p.pad_w
  { kernel_size := k.1, kernel_h := k.2.1, kernel_w := k.2.2,
    stride := s.1, stride_h := s.2.1, stride_w := s.2.2,
    pad := d.1, pad_h := d.2.1, pad_w := d.2.2 }

/-- `_fix_eltwise_param` (lines 114-117): when `coeff` is nonempty and every
coefficient equals 1, the reversed deletion loop empties it. -/
def fixEltwiseParam (p : EltwiseParam) : EltwiseParam :=
  if 0 < p.coeff.length ∧ ∀ c ∈ p.coeff, c = 1 then { p with coeff := [] } else p

/-- `_fix_batch_norm_param` (lines 120-123): with more than two blobs, reads
`blobs[2].data[0]` and replaces a 0 by 1.  Reading `data[0]` of an empty
`data` would raise an `IndexError` in Python, modelled by `none`.
(The `param` argument of the Python function is unused by its body and is
therefore not a parameter here.) -/
def fixBatchNormParam (blobs : List Blob) : Option (List Blob) :=
  if 2 < blobs.length then
    match blobs[2]? with
    | none => none
    | some b =>
      match b.data with
      | [] => none
      | d0 :: rest =>
        if d0 = 0 then some (blobs.set 2 { data := 1 :: rest })
        else some blobs
  else some blobs

/-- `_UnrecognizedAttribs` (line 33). -/
def unrecognizedAttribs : List String := ["ws_nbytes_limit"]

/-- `_remove_unrecognized_attributes` (lines 139-144): the reversed in-place
deletion of every argument whose name is in the denylist equals keeping the
arguments whose name is not. -/
def removeUnrecognizedAttributes (net : NetDef) : NetDef :=
  { net with op := net.op.map fun o =>
      { o with arg := o.arg.filter fun a => !(unrecognizedAttribs.contains a.name) } }

/-! ### `_caffe_to_caffe2`: input determination, layer patching, registration -/

/-- Failure modes of `_caffe_to_caffe2`'s input handling: `prototxt.layer[0]`
on an empty layer list raises `IndexError`; the `input_dim` length check is a
Python `assert`. -/
inductive CaffeError where
  | indexError
  | assertionError
deriving DecidableEq, Repr

/-- Input-name/shape determination of `_caffe_to_caffe2` (lines 45-56): if the
first layer is an `Input` layer, its `top` names and `input_param` shapes are
used; otherwise the top-level `input`/`input_shape` fields, falling back to
slicing the flat `input_dim` list into groups of 4 after asserting
`len(input_dims) == 4 * len(input_names)`. -/
def computeInputNamesShapes (p : NetParameter) :
    Except CaffeError (List String × List (List Int)) :=
  match p.layer.head? with
  | none => Except.error CaffeError.indexError
  | some l0 =>
    if l0.type = "Input" then
      Except.ok (l0.top, l0.input_param_shape)
    else if p.input_shape.length = 0 then
      if p.input_dim.length = 4 * p.input.length then
        Except.ok (p.input,
          (List.range p.input.length).map fun i => (p.input_dim.drop (4 * i)).take 4)
      else Except.error CaffeError.assertionError
    else Except.ok (p.input, p.input_shape)

/-- `_find_model_layer` (lines 86-93): scan `caffemodel.layer` for the first
layer of the given name, then `caffemodel.layers`, else `None`. -/
def findModelLayer (cm : CaffeModel) (name : String) : Option ModelLayer :=
  match cm.layer.find? (fun l => l.name == name) with
  | some l => some l
  | none => cm.layers.find? (fun l => l.name == name)

/-- Replace the blobs of the first layer of the given name (the in-place
mutation of the found layer's `blobs` message). -/
def setBlobsFirst (ls : List ModelLayer) (name : String) (blobs : List Blob) :
    List ModelLayer :=
  match ls with
  | [] => []
  | l :: rest =>
    if l.name == name then { l with blobs := blobs } :: rest
    else l :: setBlobsFirst rest name blobs

/-- Write the patched blobs back where `_find_model_layer` found the layer
(Python mutates the found layer in place; a name found in neither container
leaves the caffemodel untouched). -/
def updateModelBlobs (cm : CaffeModel) (name : String) (blobs : List Blob) :
    CaffeModel :=
  if (cm.layer.find? (fun l => l.name == name)).isSome then
    { cm with layer := setBlobsFirst cm.layer name blobs }
  else
    { cm with layers := setBlobsFirst cm.layers name blobs }

/-- One iteration of the patching loop of `_caffe_to_caffe2` (lines 58-68) on
a single prototxt layer: dispatch on the type tag, apply the matching fixup,
and for `BatchNorm` look up the model layer by name (empty blob list when
absent) and write the patched blobs back.  `none` models the `IndexError` of
`_fix_batch_norm_param` on an empty `data`. -/
def patchLayer (cm : CaffeModel) (layer : LayerParameter) :
    Option (LayerParameter × CaffeModel) :=
  if layer.type = "Convolution" then
    some ({ layer with convolution_param := fixConvPoolParam layer.convolution_param }, cm)
  else if layer.type = "Pooling" then
    some ({ layer with pooling_param := fixConvPoolParam layer.pooling_param }, cm)
  else if layer.type = "Eltwise" then
    some ({ layer with eltwise_param := fixEltwiseParam layer.eltwise_param }, cm)
  else if layer.type = "BatchNorm" then
    match findModelLayer cm layer.name with
    | some ml =>
      match fixBatchNormParam ml.blobs with
      | some newBlobs => some (layer, updateModelBlobs cm layer.name newBlobs)
      | none => none
    | none =>
      match fixBatchNormParam [] with
      | some _ => some (layer, cm)
      | none => none
  else some (layer, cm)

/-- External input/output registration of `_caffe_to_caffe2` (lines 72-78):
appends the first operator's first input and every trained parameter name to
`external_input`, and the last operator's first output to `external_output`.
`none` models the `IndexError` of `op[0]`, `op[-1]`, `input[0]` or
`output[0]` on an empty list. -/
def registerExternals (pn : NetDef) (params : TensorProtos) : Option NetDef :=
  match pn.op.head?, pn.op.getLast? with
  | some op0, some opl =>
    match op0.input.head?, opl.output.head? with
    | some ein, some eout =>
      some { pn with
        external_input := pn.external_input ++ ein :: params.protos.map TensorProto.name,
        external_output := pn.external_output ++ [eout] }
    | _, _ => none
  | _, _ => none

/-! ### `_caffe2_net_to_onnx_model` (lines 126-136) -/

/-- ONNX assembly: the graph itself is produced by the external
`caffe2_net_to_onnx_graph` builder, so the function is modelled on the graph
it returned.  An empty name (falsy in Python) is replaced by `"Graph"`, and
the graph is wrapped in a model with the single opset import
(domain `""`, version 11).  `onnx.checker.check_model` is external structural
validation and adds nothing to the constructed model. -/
def caffe2NetToOnnxModel (g : OnnxGraph) : OnnxModel :=
  let g := if g.name = "" then { g with name := "Graph" } else g
  { graph := g, opset_import := [{ domain := "", version := 11 }] }

/-! ### File loading (`load_caffe_model`, `load_caffe2_model`) -/

/-- Parsed content of a file, as the loaders interpret it: a present file
whose bytes do not deserialize as the message a loader expects corresponds to
any other constructor (`text_format.Merge` / `ParseFromString` / `json.load`
raise a parse error on it, per the spec's error taxonomy). -/
inductive FileData where
  | prototxtData (p : NetParameter)
  | modelData (m : CaffeModel)
  | netDefData (n : NetDef)
  | jsonData (v : List (String × List Int))
deriving DecidableEq, Repr

/-- Failure modes of the loaders: the extension `assert`, `open` on a missing
file, and a deserialization error on a present file. -/
inductive LoadErr where
  | assertionError
  | fileNotFound
  | parseError
deriving DecidableEq, Repr

/-- Python `str.rfind`: highest index holding `c`, else `-1`. -/
def rfind (cs : List Char) (c : Char) : Int :=
  match cs.reverse.findIdx? (fun x => x == c) with
  | some i => (cs.length : Int) - 1 - (i : Int)
  | none => -1

/-- `os.path.splitext` (posix): split at the last dot when it lies after the
last `/` and some character strictly between them is not a dot (so leading
dots of the basename never start an extension); otherwise the extension is
empty. -/
def splitext (p : String) : String × String :=
  let cs := p.toList
  let sepIndex := rfind cs '/'
  let dotIndex := rfind cs '.'
  if sepIndex < dotIndex then
    let stem := (cs.take dotIndex.toNat).drop (sepIndex + 1).toNat
    if stem.any (fun ch => ch != '.') then
      (String.mk (cs.take dotIndex.toNat), String.mk (cs.drop dotIndex.toNat))
    else (p, "")
  else (p, "")

/-- `load_caffe_model` (lines 147-160) over an explicit filesystem: assert the
extension is `.prototxt`, then open and parse `path` as a text-format
prototxt and `base + '.caffemodel'` as a binary caffemodel.  The second
component records every path passed to `open`, in order. -/
def loadCaffeModel (fs : String → Option FileData) (path : String) :
    Except LoadErr (NetParameter × CaffeModel) × List String :=
  let base := (splitext path).1
  let ext := (splitext path).2
  if ext ≠ ".prototxt" then (Except.error LoadErr.assertionError, [])
  else
    match fs path with
    | none => (Except.error LoadErr.fileNotFound, [path])
    | some (FileData.prototxtData p) =>
      match fs (base ++ ".caffemodel") with
      | none => (Except.error LoadErr.fileNotFound, [path, base ++ ".caffemodel"])
      | some (FileData.modelData m) =>
        (Except.ok (p, m), [path, base ++ ".caffemodel"])
      | some _ => (Except.error LoadErr.parseError, [path, base ++ ".caffemodel"])
    | some _ => (Except.error LoadErr.parseError, [path])

/-- `load_caffe2_model` (lines 170-182) over an explicit filesystem: open and
parse `predict_net.pb`, then `init_net.pb`, then `value_info.json` from the
folder (`os.path.join` on a folder with no trailing separator).  The second
component records every path passed to `open`, in order. -/
def loadCaffe2Model (fs : String → Option FileData) (folder : String) :
    Except LoadErr (NetDef × NetDef × List (String × List Int)) × List String :=
  let p1 := folder ++ "/predict_net.pb"
  let p2 := folder ++ "/init_net.pb"
  let p3 := folder ++ "/value_info.json"
  match fs p1 with
  | none => (Except.error LoadErr.fileNotFound, [p1])
  | some (FileData.netDefData pn) =>
    match fs p2 with
    | none => (Except.error LoadErr.fileNotFound, [p1, p2])
    | some (FileData.netDefData inet) =>
      match fs p3 with
      | none => (Except.error LoadErr.fileNotFound, [p1, p2, p3])
      | some (FileData.jsonData v) => (Except.ok (pn, inet, v), [p1, p2, p3])
      | some _ => (Except.error LoadErr.parseError, [p1, p2, p3])
    | some _ => (Except.error LoadErr.parseError, [p1, p2])
  | some _ => (Except.error LoadErr.parseError, [p1])

/-! ### Helper lemmas -/

theorem fix2_pair (a b h w : Nat) : fix2 [a, b] h w = ([], a, b) := rfl

theorem fix2_of_len_ne (arr : List Nat) (h w : Nat) (hne : arr.length ≠ 2) :
    fix2 arr h w = (arr, h, w) := by
  cases arr with
  | nil => rfl
  | cons a t =>
    cases t with
    | nil => rfl
    | cons b t2 =>
      cases t2 with
      | nil => exact absurd rfl hne
      | cons c t3 => rfl

theorem fix2_idem (arr : List Nat) (h w : Nat) :
    fix2 (fix2 arr h w).1 (fix2 arr h w).2.1 (fix2 arr h w).2.2 = fix2 arr h w := by
  cases arr with
  | nil => rfl
  | cons a t =>
    cases t with
    | nil => rfl
    | cons b t2 =>
      cases t2 with
      | nil => rfl
      | cons c t3 => rfl

/-! ### Claims about the fixups -/

/-- Claim C1: for every Convolution/Pooling parameter block, a 2-element
`kernel_size` (resp. `stride`, `pad`) array makes `_fix_conv_pool_param` set
the corresponding `_h` scalar to its first element and the `_w` scalar to its
second and empties the array; an array of any other length leaves that array
and its two scalars unchanged. -/
theorem fix_conv_pool_param_spec (p : ConvPoolParam) :
    ((∀ a b, p.kernel_size = [a, b] →
        (fixConvPoolParam p).kernel_h = a ∧ (fixConvPoolParam p).kernel_w = b ∧
        (fixConvPoolParam p).kernel_size = []) ∧
     (p.kernel_size.length ≠ 2 →
        (fixConvPoolParam p).kernel_size = p.kernel_size ∧
        (fixConvPoolParam p).kernel_h = p.kernel_h ∧
        (fixConvPoolParam p).kernel_w = p.kernel_w)) ∧
    ((∀ a b, p.stride = [a, b] →
        (fixConvPoolParam p).stride_h = a ∧ (fixConvPoolParam p).stride_w = b ∧
        (fixConvPoolParam p).stride = []) ∧
     (p.stride.length ≠ 2 →
        (fixConvPoolParam p).stride = p.stride ∧
        (fixConvPoolParam p).stride_h = p.stride_h ∧
        (fixConvPoolParam p).stride_w = p.stride_w)) ∧
    ((∀ a b, p.pad = [a, b] →
        (fixConvPoolParam p).pad_h = a ∧ (fixConvPoolParam p).pad_w = b ∧
        (fixConvPoolParam p).pad = []) ∧
     (p.pad.length ≠ 2 →
        (fixConvPoolParam p).pad = p.pad ∧
        (fixConvPoolParam p).pad_h = p.pad_h ∧
        (fixConvPoolParam p).pad_w = p.pad_w)) := by
  refine ⟨⟨fun a b hab => ?_, fun hne => ?_⟩,
          ⟨fun a b hab => ?_, fun hne => ?_⟩,
          ⟨fun a b hab => ?_, fun hne => ?_⟩⟩ <;>
    simp only [fixConvPoolParam] <;>
    first
      | (rw [hab, fix2_pair]; exact ⟨rfl, rfl, rfl⟩)
      | (rw [fix2_of_len_ne _ _ _ hne]; exact ⟨rfl, rfl, rfl⟩)

/-- Concrete instance discharging the hypotheses of
`fix_conv_pool_param_spec`. -/
theorem fix_conv_pool_param_spec_witness :
    (fixConvPoolParam { kernel_size := [3, 5], kernel_h := 0, kernel_w := 0,
                        stride := [1], stride_h := 7, stride_w := 8,
                        pad := [2, 2], pad_h := 0, pad_w := 0 }).kernel_h = 3 ∧
    (fixConvPoolParam { kernel_size := [3, 5], kernel_h := 0, kernel_w := 0,
                        stride := [1], stride_h := 7, stride_w := 8,
                        pad := [2, 2], pad_h := 0, pad_w := 0 }).stride = [1] := by
  constructor
  · exact ((fix_conv_pool_param_spec _).1.1 3 5 rfl).1
  · exact ((fix_conv_pool_param_spec _).2.1.2 (by decide)).1

/-- Claim C4: `_fix_eltwise_param` empties the coefficient array when every
coefficient equals 1, and leaves the parameter unchanged when some
coefficient differs from 1. -/
theorem fix_eltwise_param_spec (p : EltwiseParam) :
    ((∀ c ∈ p.coeff, c = 1) → (fixEltwiseParam p).coeff = []) ∧
    ((∃ c ∈ p.coeff, c ≠ 1) → fixEltwiseParam p = p) := by
  constructor
  · intro hall
    unfold fixEltwiseParam
    split
    · rfl
    · next hcond =>
      push_neg at hcond
      rcases Nat.eq_zero_or_pos p.coeff.length with hz | hpos
      · exact List.length_eq_zero.mp hz
      · obtain ⟨c, hc, hne⟩ := hcond hpos
        exact absurd (hall c hc) hne
  · rintro ⟨c, hc, hne⟩
    unfold fixEltwiseParam
    split
    · next hcond => exact absurd (hcond.2 c hc) hne
    · rfl

/-- Concrete instance discharging the hypotheses of
`fix_eltwise_param_spec`. -/
theorem fix_eltwise_param_spec_witness :
    (fixEltwiseParam { coeff := [1, 1, 1] }).coeff = [] ∧
    fixEltwiseParam { coeff := [1, 2] } = { coeff := [1, 2] } := by
  constructor
  · exact (fix_eltwise_param_spec _).1 (by decide)
  · exact (fix_eltwise_param_spec _).2 ⟨2, by decide, by decide⟩

/-- Claim C5: with at least 3 blobs, `_fix_batch_norm_param` replaces the
third blob's first value by 1 when it is 0 (leaving everything else intact),
leaves the blobs unchanged when it is any other number, and with fewer than 3
blobs changes nothing. -/
theorem fix_batch_norm_param_spec (blobs : List Blob) :
    (∀ b d0 rest, blobs[2]? = some b → b.data = d0 :: rest →
       ((d0 = 0 → fixBatchNormParam blobs = some (blobs.set 2 { data := 1 :: rest })) ∧
        (d0 ≠ 0 → fixBatchNormParam blobs = some blobs))) ∧
    (blobs.length < 3 → fixBatchNormParam blobs = some blobs) := by
  constructor
  · intro b d0 rest h2 hdata
    have hlen : 2 < blobs.length := by
      rcases List.getElem?_eq_some.mp h2 with ⟨h, _⟩
      exact h
    obtain ⟨bd⟩ := b
    simp only [Blob.mk.injEq] at hdata ⊢
    subst hdata
    constructor
    · intro h0
      subst h0
      simp [fixBatchNormParam, hlen, h2]
    · intro hne
      simp [fixBatchNormParam, hlen, h2, hne]
  · intro hlt
    unfold fixBatchNormParam
    rw [if_neg (by omega)]

/-- Concrete instance discharging the hypotheses of
`fix_batch_norm_param_spec`. -/
theorem fix_batch_norm_param_spec_witness :
    fixBatchNormParam [{ data := [5] }, { data := [6] }, { data := [0, 4] }] =
      some [{ data := [5] }, { data := [6] }, { data := [1, 4] }] ∧
    fixBatchNormParam [{ data := [0] }] = some [{ data := [0] }] := by
  constructor
  · exact ((fix_batch_norm_param_spec _).1 { data := [0, 4] } 0 [4] rfl rfl).1 rfl
  · exact (fix_batch_norm_param_spec _).2 (by decide)

/-- Idempotence of `_fix_batch_norm_param`, shared with the main claim
theorem below via the per-function lemmas. -/
theorem fixBatchNormParam_idem (blobs b : List Blob)
    (h : fixBatchNormParam blobs = some b) : fixBatchNormParam b = some b := by
  by_cases hlen : 2 < blobs.length
  · rcases h2 : blobs[2]? with _ | bl
    · rw [List.getElem?_eq_none_iff] at h2
      omega
    · obtain ⟨bd⟩ := bl
      rcases hd : bd with _ | ⟨d0, rest⟩
      · subst hd
        simp [fixBatchNormParam, hlen, h2] at h
      · subst hd
        by_cases h0 : d0 = 0
        · subst h0
          simp [fixBatchNormParam, hlen, h2] at h
          subst h
          have hlen2 : 2 < (blobs.set 2 { data := 1 :: rest }).length := by
            simpa using hlen
          have h2b : (blobs.set 2 ({ data := 1 :: rest } : Blob))[2]? =
              some { data := 1 :: rest } := by
            simp [List.getElem?_set_self hlen]
          simp [fixBatchNormParam, hlen2, h2b]
        · simp [fixBatchNormParam, hlen, h2, h0] at h
          subst h
          simp [fixBatchNormParam, hlen, h2, h0]
  · have hb : b = blobs := by
      simp [fixBatchNormParam, hlen] at h
      exact h.symm
    subst hb
    simp [fixBatchNormParam, hlen]

/-- Claim C6: `_fix_conv_pool_param`, `_fix_eltwise_param` and
`_fix_batch_norm_param` are idempotent, and `_remove_unrecognized_attributes`
is idempotent and a no-op on a network with no denylisted argument name. -/
theorem fixups_idempotent :
    (∀ p : ConvPoolParam, fixConvPoolParam (fixConvPoolParam p) = fixConvPoolParam p) ∧
    (∀ p : EltwiseParam, fixEltwiseParam (fixEltwiseParam p) = fixEltwiseParam p) ∧
    (∀ blobs b, fixBatchNormParam blobs = some b → fixBatchNormParam b = some b) ∧
    (∀ net : NetDef,
       removeUnrecognizedAttributes (removeUnrecognizedAttributes net) =
         removeUnrecognizedAttributes net) ∧
    (∀ net : NetDef, (∀ o ∈ net.op, ∀ a ∈ o.arg, a.name ∉ unrecognizedAttribs) →
       removeUnrecognizedAttributes net = net) := by
  refine ⟨fun p => ?_, fun p => ?_, fixBatchNormParam_idem, fun net => ?_, fun net h => ?_⟩
  · simp only [fixConvPoolParam, fix2_idem]
  · by_cases hcond : 0 < p.coeff.length ∧ ∀ c ∈ p.coeff, c = 1
    · have h1 : fixEltwiseParam p = { p with coeff := [] } := by
        unfold fixEltwiseParam
        rw [if_pos hcond]
      rw [h1]
      unfold fixEltwiseParam
      rw [if_neg (by simp)]
    · have h1 : fixEltwiseParam p = p := by
        unfold fixEltwiseParam
        rw [if_neg hcond]
      rw [h1, h1]
  · unfold removeUnrecognizedAttributes
    simp only [List.map_map]
    congr 1
    apply List.map_congr_left
    intro o _
    simp [List.filter_filter]
  · unfold removeUnrecognizedAttributes
    have hmap : ∀ o ∈ net.op,
        ({ o with arg := o.arg.filter fun a => !(unrecognizedAttribs.contains a.name) }
          : OperatorDef) = id o := by
      intro o ho
      have harg : o.arg.filter (fun a => !(unrecognizedAttribs.contains a.name)) = o.arg := by
        rw [List.filter_eq_self]
        intro a ha
        simpa using h o ho a ha
      rw [harg]
      rfl
    rw [List.map_congr_left hmap, List.map_id]

/-- Concrete instance discharging the hypotheses of `fixups_idempotent`. -/
theorem fixups_idempotent_witness :
    fixBatchNormParam [{ data := [0] }] = some [{ data := [0] }] ∧
    removeUnrecognizedAttributes
      { op := [{ input := ["x"], output := ["y"], arg := [{ name := "order", i := 0 }] }],
        external_input := [], external_output := [] } =
      { op := [{ input := ["x"], output := ["y"], arg := [{ name := "order", i := 0 }] }],
        external_input := [], external_output := [] } := by
  constructor
  · exact fixups_idempotent.2.2.1 [{ data := [0] }] [{ data := [0] }] rfl
  · exact fixups_idempotent.2.2.2.2 _ (by decide)

/-! ### Claims about `_caffe_to_caffe2` -/

/-- Claim C2 (amended): with a nonempty layer list, the input handling of
`_caffe_to_caffe2` fails its assertion exactly when the first layer is not an
`Input` layer, `input_shape` is empty, and the flat `input_dim` length is not
EQUAL to 4 times the number of input names (the code demands equality, not
divisibility). -/
theorem caffe_input_dim_assertion_iff (p : NetParameter) (l0 : LayerParameter)
    (h0 : p.layer.head? = some l0) :
    computeInputNamesShapes p = Except.error CaffeError.assertionError ↔
      (l0.type ≠ "Input" ∧ p.input_shape = [] ∧
       p.input_dim.length ≠ 4 * p.input.length) := by
  simp only [computeInputNamesShapes, h0]
  by_cases ht : l0.type = "Input"
  · simp [ht]
  · rw [if_neg ht]
    by_cases hs : p.input_shape.length = 0
    · rw [if_pos hs]
      by_cases hd : p.input_dim.length = 4 * p.input.length
      · simp [hd, ht]
      · simp [hd, ht, List.length_eq_zero.mp hs]
    · rw [if_neg hs]
      have hne : p.input_shape ≠ [] := fun he => hs (by simp [he])
      simp [ht, hne]

/-- A network whose first layer is not `Input`, used to discharge the
hypotheses of `caffe_input_dim_assertion_iff` (flat `input_dim` of length 3
for one input). -/
def flatDimLayer : LayerParameter :=
  { type := "Data", name := "d", top := [], input_param_shape := [],
    convolution_param := default, pooling_param := default,
    eltwise_param := default }

def flatDimNet : NetParameter :=
  { layer := [flatDimLayer], input := ["data"], input_shape := [],
    input_dim := [1, 3, 224] }

/-- Concrete instance discharging the hypotheses of
`caffe_input_dim_assertion_iff`. -/
theorem caffe_input_dim_assertion_iff_witness :
    computeInputNamesShapes flatDimNet = Except.error CaffeError.assertionError :=
  (caffe_input_dim_assertion_iff flatDimNet flatDimLayer rfl).mpr
    ⟨by decide, rfl, by decide⟩

/-- A network with one input name and a flat `input_dim` of length 8: the
length IS a multiple of `4 × input_count`, yet the assertion fires, because
the code requires equality. -/
def inputDimLayer : LayerParameter :=
  { type := "Data", name := "d0", top := [], input_param_shape := [],
    convolution_param := default, pooling_param := default,
    eltwise_param := default }

def inputDimNet : NetParameter :=
  { layer := [inputDimLayer], input := ["data"], input_shape := [],
    input_dim := [10, 3, 224, 224, 10, 3, 224, 224] }

/-- Counterexample to claim C2 as stated: no `Input` layer, empty
`input_shape`, and an `input_dim` length that is a multiple of 4 times the
input count (8 = 2·4·1), so the claim predicts no assertion — but the
translation fails the assertion. -/
theorem caffe_input_dim_multiple_counterexample :
    (∀ l ∈ inputDimNet.layer, l.type ≠ "Input") ∧
    inputDimNet.input_shape = [] ∧
    inputDimNet.input_dim.length % (4 * inputDimNet.input.length) = 0 ∧
    computeInputNamesShapes inputDimNet = Except.error CaffeError.assertionError := by
  exact ⟨by decide, rfl, by decide, rfl⟩

/-- Claim C3: with at least one operator (and a first input of the first
operator and a first output of the last), the registration step of
`_caffe_to_caffe2` makes the external inputs exactly the first operator's
first input followed by all trained-parameter names, and the sole external
output the last operator's first output (on a translated net whose external
lists start empty). -/
theorem register_externals_spec (pn : NetDef) (params : TensorProtos)
    (op0 opl : OperatorDef) (ein eout : String)
    (h1 : pn.op.head? = some op0) (h2 : pn.op.getLast? = some opl)
    (h3 : op0.input.head? = some ein) (h4 : opl.output.head? = some eout)
    (h5 : pn.external_input = []) (h6 : pn.external_output = []) :
    registerExternals pn params =
      some { pn with
        external_input := ein :: params.protos.map TensorProto.name,
        external_output := [eout] } := by
  unfold registerExternals
  rw [h1, h2]
  simp [h3, h4, h5, h6]

/-- Concrete instance discharging the hypotheses of
`register_externals_spec`. -/
theorem register_externals_spec_witness :
    registerExternals
      { op := [{ input := ["data", "w"], output := ["y"], arg := [] }],
        external_input := [], external_output := [] }
      { protos := [{ name := "w" }] } =
      some { op := [{ input := ["data", "w"], output := ["y"], arg := [] }],
             external_input := ["data", "w"], external_output := ["y"] } :=
  register_externals_spec
    { op := [{ input := ["data", "w"], output := ["y"], arg := [] }],
      external_input := [], external_output := [] }
    { protos := [{ name := "w" }] }
    { input := ["data", "w"], output := ["y"], arg := [] }
    { input := ["data", "w"], output := ["y"], arg := [] }
    "data" "y" rfl rfl rfl rfl rfl rfl

/-! ### Claims about the loaders and ONNX assembly -/

/-- Claim C7: for a path whose extension is not exactly `.prototxt`,
`load_caffe_model` fails the extension assertion before any file I/O: the
result is the assertion failure and the trace of opened files is empty, for
every filesystem. -/
theorem load_caffe_model_ext_check (fs : String → Option FileData) (path : String)
    (h : (splitext path).2 ≠ ".prototxt") :
    loadCaffeModel fs path = (Except.error LoadErr.assertionError, []) := by
  unfold loadCaffeModel
  rw [if_pos h]

/-- Concrete instance discharging the hypotheses of
`load_caffe_model_ext_check`. -/
theorem load_caffe_model_ext_check_witness :
    loadCaffeModel (fun _ => none) "model.caffemodel" =
      (Except.error LoadErr.assertionError, []) :=
  load_caffe_model_ext_check (fun _ => none) "model.caffemodel" (by decide)

/-- Claim C8 (amended): for every folder missing `value_info.json`,
`load_caffe2_model` fails and returns no triple; the failure is the
file-not-found condition provided each of `predict_net.pb` and
`init_net.pb` that is present is a well-formed NetDef (a malformed earlier
file instead fails with its parse error). -/
theorem load_caffe2_missing_value_info_spec (fs : String → Option FileData)
    (folder : String) (h : fs (folder ++ "/value_info.json") = none) :
    (¬ ∃ r t, loadCaffe2Model fs folder = (Except.ok r, t)) ∧
    ((∀ d, fs (folder ++ "/predict_net.pb") = some d →
        ∃ n, d = FileData.netDefData n) →
     (∀ d, fs (folder ++ "/init_net.pb") = some d →
        ∃ n, d = FileData.netDefData n) →
     (loadCaffe2Model fs folder).1 = Except.error LoadErr.fileNotFound) := by
  rcases h1 : fs (folder ++ "/predict_net.pb") with _ | d1
  · constructor
    · rintro ⟨r, t, hrt⟩
      simp [loadCaffe2Model, h1] at hrt
    · intro _ _
      simp [loadCaffe2Model, h1]
  · cases d1 with
    | netDefData n1 =>
      rcases h2 : fs (folder ++ "/init_net.pb") with _ | d2
      · constructor
        · rintro ⟨r, t, hrt⟩
          simp [loadCaffe2Model, h1, h2] at hrt
        · intro _ _
          simp [loadCaffe2Model, h1, h2]
      · cases d2 with
        | netDefData n2 =>
          constructor
          · rintro ⟨r, t, hrt⟩
            simp [loadCaffe2Model, h1, h2, h] at hrt
          · intro _ _
            simp [loadCaffe2Model, h1, h2, h]
        | prototxtData p =>
          refine ⟨fun ⟨r, t, hrt⟩ => by simp [loadCaffe2Model, h1, h2] at hrt,
                  fun _ w2 => ?_⟩
          obtain ⟨n, hn⟩ := w2 _ rfl
          simp at hn
        | modelData m =>
          refine ⟨fun ⟨r, t, hrt⟩ => by simp [loadCaffe2Model, h1, h2] at hrt,
                  fun _ w2 => ?_⟩
          obtain ⟨n, hn⟩ := w2 _ rfl
          simp at hn
        | jsonData v =>
          refine ⟨fun ⟨r, t, hrt⟩ => by simp [loadCaffe2Model, h1, h2] at hrt,
                  fun _ w2 => ?_⟩
          obtain ⟨n, hn⟩ := w2 _ rfl
          simp at hn
    | prototxtData p =>
      refine ⟨fun ⟨r, t, hrt⟩ => by simp [loadCaffe2Model, h1] at hrt,
              fun w1 _ => ?_⟩
      obtain ⟨n, hn⟩ := w1 _ rfl
      simp at hn
    | modelData m =>
      refine ⟨fun ⟨r, t, hrt⟩ => by simp [loadCaffe2Model, h1] at hrt,
              fun w1 _ => ?_⟩
      obtain ⟨n, hn⟩ := w1 _ rfl
      simp at hn
    | jsonData v =>
      refine ⟨fun ⟨r, t, hrt⟩ => by simp [loadCaffe2Model, h1] at hrt,
              fun w1 _ => ?_⟩
      obtain ⟨n, hn⟩ := w1 _ rfl
      simp at hn

/-- Concrete instance discharging the hypotheses of
`load_caffe2_missing_value_info_spec`: an empty folder. -/
theorem load_caffe2_missing_value_info_spec_witness :
    (loadCaffe2Model (fun _ => none) "m").1 = Except.error LoadErr.fileNotFound :=
  (load_caffe2_missing_value_info_spec (fun _ => none) "m" rfl).2
    (fun _ hd => Option.noConfusion hd) (fun _ hd => Option.noConfusion hd)

/-- A folder whose `predict_net.pb` is present but does not deserialize as a
NetDef (its bytes parse as something else), and whose `value_info.json` is
absent. -/
def badPredictNetFs : String → Option FileData := fun s =>
  if s = "model/predict_net.pb" then some (FileData.jsonData []) else none

/-- Counterexample to claim C8 as stated: `value_info.json` is absent from
the folder, yet the loader fails with a parse error on the malformed
`predict_net.pb` (opened first), not with a file-not-found condition. -/
theorem load_caffe2_missing_value_info_counterexample :
    badPredictNetFs ("model" ++ "/value_info.json") = none ∧
    (loadCaffe2Model badPredictNetFs "model").1 = Except.error LoadErr.parseError ∧
    LoadErr.parseError ≠ LoadErr.fileNotFound :=
  ⟨rfl, rfl, by decide⟩

/-- Claim C9: `_caffe2_net_to_onnx_model` names the graph `"Graph"` exactly
when the builder left the name empty (leaving the graph unchanged
otherwise), and wraps it in a model whose opset imports are the single entry
with empty domain and version 11. -/
theorem caffe2_net_to_onnx_model_spec (g : OnnxGraph) :
    (g.name = "" → (caffe2NetToOnnxModel g).graph = { g with name := "Graph" }) ∧
    (g.name ≠ "" → (caffe2NetToOnnxModel g).graph = g) ∧
    (caffe2NetToOnnxModel g).opset_import = [{ domain := "", version := 11 }] := by
  refine ⟨fun h => ?_, fun h => ?_, ?_⟩
  · simp [caffe2NetToOnnxModel, h]
  · simp [caffe2NetToOnnxModel, h]
  · simp [caffe2NetToOnnxModel]

/-- Concrete instance discharging the hypotheses of
`caffe2_net_to_onnx_model_spec`. -/
theorem caffe2_net_to_onnx_model_spec_witness :
    (caffe2NetToOnnxModel { name := "", node := ["Conv"] }).graph =
      { name := "Graph", node := ["Conv"] } ∧
    (caffe2NetToOnnxModel { name := "net", node := ["Conv"] }).graph =
      { name := "net", node := ["Conv"] } := by
  constructor
  · exact (caffe2_net_to_onnx_model_spec _).1 rfl
  · exact (caffe2_net_to_onnx_model_spec _).2.1 (by decide)

/-- Claim C10: for a BatchNorm layer whose name matches no layer in either
caffemodel container, `_find_model_layer` returns no record (it searches
`layer` before `layers` and returns the first name match), and the patching
step for that layer leaves the layer and the caffemodel unchanged without
an error. -/
theorem find_model_layer_none_spec (cm : CaffeModel) (layer : LayerParameter)
    (hbn : layer.type = "BatchNorm")
    (h1 : ∀ l ∈ cm.layer, l.name ≠ layer.name)
    (h2 : ∀ l ∈ cm.layers, l.name ≠ layer.name) :
    findModelLayer cm layer.name = none ∧
    (∀ nm, findModelLayer cm nm =
       (cm.layer ++ cm.layers).find? (fun l => l.name == nm)) ∧
    patchLayer cm layer = some (layer, cm) := by
  have hf1 : cm.layer.find? (fun l => l.name == layer.name) = none := by
    rw [List.find?_eq_none]
    intro l hl
    simpa using h1 l hl
  have hf2 : cm.layers.find? (fun l => l.name == layer.name) = none := by
    rw [List.find?_eq_none]
    intro l hl
    simpa using h2 l hl
  have hnone : findModelLayer cm layer.name = none := by
    unfold findModelLayer
    rw [hf1, hf2]
  refine ⟨hnone, fun nm => ?_, ?_⟩
  · unfold findModelLayer
    rw [List.find?_append]
    cases cm.layer.find? (fun l => l.name == nm) <;> rfl
  · unfold patchLayer
    rw [hbn, hnone]
    simp [fixBatchNormParam]

/-- A BatchNorm layer absent from the caffemodel, used to discharge the
hypotheses of `find_model_layer_none_spec`. -/
def orphanBatchNorm : LayerParameter :=
  { type := "BatchNorm", name := "bn1", top := [],
    input_param_shape := [], convolution_param := default,
    pooling_param := default, eltwise_param := default }

def orphanModel : CaffeModel :=
  { layer := [{ name := "conv1", blobs := [] }], layers := [] }

/-- Concrete instance discharging the hypotheses of
`find_model_layer_none_spec`. -/
theorem find_model_layer_none_spec_witness :
    findModelLayer orphanModel orphanBatchNorm.name = none ∧
    patchLayer orphanModel orphanBatchNorm = some (orphanBatchNorm, orphanModel) := by
  constructor
  · exact (find_model_layer_none_spec orphanModel orphanBatchNorm rfl
      (by decide) (by decide)).1
  · exact (find_model_layer_none_spec orphanModel orphanBatchNorm rfl
      (by decide) (by decide)).2.2
